import Mathlib

/-!
Verification development for the coffee-shop revenue prediction web app
(`src/app.py`).  The file shallowly embeds the model loader (`load_model`),
the input validator (`prepare_input`), and the `/predict` request handler
(`predict`), and proves the stated properties about them.

Python floating-point values are modelled by `PyFloat`: `nan`, signed
infinity, or a finite value carried as an exact rational (the decimal
literal's value; binary rounding is irrelevant to every property proved
here, which only compare parses of the same strings).
-/

namespace CoffeeApp

/-- A Python float as far as this app observes it: NaN, a signed infinity,
or a finite value (the exact rational denoted by the accepted literal). -/
inductive PyFloat where
  | nan : PyFloat
  | inf (neg : Bool) : PyFloat
  | finite (q : ℚ) : PyFloat
deriving DecidableEq, Repr

/-- The whitespace characters stripped by Python's `str.strip()`
(ASCII subset; the app's inputs are form strings). -/
def pyIsSpace (c : Char) : Bool :=
  c = ' ' || c = '\t' || c = '\n' || c = '\r' || c = '\x0b' || c = '\x0c'

/-- `str.strip()`: drop leading and trailing whitespace. -/
def pyStrip (s : String) : String :=
  ⟨((s.data.dropWhile pyIsSpace).reverse.dropWhile pyIsSpace).reverse⟩

/-- Decimal digit value of a digit character. -/
def digitVal (c : Char) : Nat := c.toNat - 48

/-- Parse the tail of a Python `digitpart` (digits with single underscores
between digits), accumulating the value and the count of digits seen. -/
def parseDigitsAux : Nat → Nat → List Char → Option (Nat × Nat)
  | acc, cnt, [] => some (acc, cnt)
  | acc, cnt, '_' :: c :: cs =>
      if c.isDigit then parseDigitsAux (acc * 10 + digitVal c) (cnt + 1) cs else none
  | _, _, ['_'] => none
  | acc, cnt, c :: cs =>
      if c.isDigit then parseDigitsAux (acc * 10 + digitVal c) (cnt + 1) cs else none

/-- Parse a full Python `digitpart`: nonempty, starts with a digit,
underscores only between digits.  Returns (value, digit count). -/
def parseDigitpart : List Char → Option (Nat × Nat)
  | [] => none
  | '_' :: _ => none
  | c :: cs => if c.isDigit then parseDigitsAux (digitVal c) 1 cs else none

/-- Split at the first `e`/`E` (exponent marker), if any. -/
def splitAtExp : List Char → List Char × Option (List Char)
  | [] => ([], none)
  | c :: cs =>
      if c = 'e' || c = 'E' then ([], some cs)
      else
        let r := splitAtExp cs
        (c :: r.1, r.2)

/-- Split at the first `.`, if any. -/
def splitAtDot : List Char → List Char × Option (List Char)
  | [] => ([], none)
  | c :: cs =>
      if c = '.' then ([], some cs)
      else
        let r := splitAtDot cs
        (c :: r.1, r.2)

/-- Parse a Python float mantissa (`digitpart`, `digitpart "." [digitpart]`,
or `[digitpart] "." digitpart`).  Returns the digit string's integer value
with the dot removed, together with the count of fractional digits
(`"5.5"` gives `(55, 1)`). -/
def parseMantissa (cs : List Char) : Option (Nat × Nat) :=
  match splitAtDot cs with
  | (l, none) => (parseDigitpart l).map (fun p => (p.1, 0))
  | ([], some []) => none
  | ([], some r) => (parseDigitpart r).map (fun p => (p.1, p.2))
  | (l, some []) => (parseDigitpart l).map (fun p => (p.1, 0))
  | (l, some r) =>
      match parseDigitpart l, parseDigitpart r with
      | some lp, some rp => some (lp.1 * 10 ^ rp.2 + rp.1, rp.2)
      | _, _ => none

/-- Parse the numeric (non-inf/nan) body of a Python float literal.
Returns the exact value as an unreduced numerator/denominator pair
(`mv * 10 ^ (e - fc)` for mantissa `(mv, fc)` and exponent `e`). -/
def parseNumeric (cs : List Char) : Option (Nat × Nat) :=
  let me := splitAtExp cs
  match parseMantissa me.1 with
  | none => none
  | some mp =>
      match me.2 with
      | none => some (mp.1, 10 ^ mp.2)
      | some ecs =>
          let se : Bool × List Char :=
            match ecs with
            | '-' :: r => (true, r)
            | '+' :: r => (false, r)
            | r => (false, r)
          match parseDigitpart se.2 with
          | none => none
          | some ep =>
              if se.1 then some (mp.1, 10 ^ (mp.2 + ep.1))
              else if mp.2 ≤ ep.1 then some (mp.1 * 10 ^ (ep.1 - mp.2), 1)
              else some (mp.1, 10 ^ (mp.2 - ep.1))

/-- Python's `float(str)` conversion: optional surrounding whitespace, an
optional sign, then `inf`/`infinity`/`nan` (case-insensitive) or a decimal
literal with optional fraction and exponent.  `none` models `ValueError`. -/
def pyFloatOfString (s : String) : Option PyFloat :=
  let cs := (pyStrip s).data
  let sr : Bool × List Char :=
    match cs with
    | '-' :: r => (true, r)
    | '+' :: r => (false, r)
    | r => (false, r)
  let low := sr.2.map Char.toLower
  if low = "inf".data || low = "infinity".data then some (.inf sr.1)
  else if low = "nan".data then some .nan
  else
    match parseNumeric sr.2 with
    | none => none
    | some p => some (.finite (mkRat (if sr.1 then -(p.1 : Int) else (p.1 : Int)) p.2))

/-- The feature schema, `FEATURES` in `app.py`: the fixed, ordered list of
six input field names. -/
def FEATURES : List String :=
  [ "Number_of_Customers_Per_Day"
  , "Average_Order_Value"
  , "Operating_Hours_Per_Day"
  , "Number_of_Employees"
  , "Marketing_Spend_Per_Day"
  , "Location_Foot_Traffic" ]

/-- Submitted form data: an ordered list of key/value pairs. -/
abbrev Form := List (String × String)

/-- `form.get(key, dflt)`: first value stored under `key`, else the default. -/
def formGet (form : Form) (key dflt : String) : String :=
  match form.find? (fun p => p.1 = key) with
  | some p => p.2
  | none => dflt

/-- The raw value `prepare_input` examines for a field:
`form.get(feat, "").strip()`. -/
def rawOf (form : Form) (feat : String) : String :=
  pyStrip (formGet form feat "")

/-- The loop body of `prepare_input` over a list of feature names: for each
field in order, reject blank values, parse with `float`, collect the values.
Errors are the `ValueError` messages raised by the source. -/
def prepareInputAux (form : Form) : List String → Except String (List PyFloat)
  | [] => .ok []
  | feat :: rest =>
      let raw := rawOf form feat
      if raw = "" then .error ("Missing value for " ++ feat)
      else
        match pyFloatOfString raw with
        | none => .error ("Invalid numeric value for " ++ feat ++ ": '" ++ raw ++ "'")
        | some v => (prepareInputAux form rest).map (fun vs => v :: vs)

/-- `prepare_input(form)`: build the single row of float values in
`FEATURES` order (the DataFrame row), or fail with the first error. -/
def prepare_input (form : Form) : Except String (List PyFloat) :=
  prepareInputAux form FEATURES

/-! ## The model loader (`load_model`) -/

/-- Characters Python's `repr` leaves unescaped inside a single-quoted
string literal (no backslash, no single quote, no control escapes). -/
def plainChar (c : Char) : Bool :=
  !(c = '\\' || c = '\x27' || c = '\n' || c = '\r' || c = '\t')

/-- A string whose `repr` rendering is itself (no character escaped). -/
def plainStr (s : String) : Bool := s.data.all plainChar

/-- Escape one character the way Python's `repr` does inside a
single-quoted string. -/
def pyEscapeChar (c : Char) : String :=
  if c = '\\' then "\\\\"
  else if c = '\x27' then "\\'"
  else if c = '\n' then "\\n"
  else if c = '\r' then "\\r"
  else if c = '\t' then "\\t"
  else String.singleton c

/-- Escape a character list the way Python's `repr` renders string
content. -/
def pyEscape : List Char → List Char
  | [] => []
  | c :: cs => (pyEscapeChar c).data ++ pyEscape cs

/-- Python `repr` of a string that will be rendered single-quoted
(printable-ASCII content; the quote-choice refinement for strings that
contain a single quote but no double quote is immaterial to the
properties proved, which assume escape-free reasons). -/
def pyReprStr (s : String) : String :=
  "'" ++ String.mk (pyEscape s.data) ++ "'"

/-- Python `repr` of a 2-tuple of strings. -/
def pyReprPair (p : String × String) : String :=
  "(" ++ pyReprStr p.1 ++ ", " ++ pyReprStr p.2 ++ ")"

/-- `", ".join`, as Python's list `repr` separates items. -/
def commaJoin : List String → String
  | [] => ""
  | [s] => s
  | s :: rest@(_ :: _) => s ++ ", " ++ commaJoin rest

/-- Python `repr` of the `errs` list of `(strategy, message)` pairs. -/
def pyReprErrs (l : List (String × String)) : String :=
  "[" ++ commaJoin (l.map pyReprPair) ++ "]"

/-- `load_model(path)`.  Each deserialization strategy (joblib, then pickle
with latin1 encoding, then dill) is embedded as its outcome: `.ok m` if the
attempt returns a model, `.error msg` with `str(e)` if it raises.  The
source returns the first success; if all fail it raises a `RuntimeError`
whose message aggregates the recorded `errs`. -/
def load_model {α : Type} (joblib pickle_latin1 dill : Except String α) :
    Except String α :=
  match joblib with
  | .ok m => .ok m
  | .error e1 =>
      match pickle_latin1 with
      | .ok m => .ok m
      | .error e2 =>
          match dill with
          | .ok m => .ok m
          | .error e3 =>
              .error ("Model could not be loaded. Tried joblib, pickle(latin1), dill. Errors: "
                ++ pyReprErrs [("joblib", e1), ("pickle_latin1", e2), ("dill", e3)])

/-! ## Application state and the `/predict` handler -/

/-- A model's behavior at prediction time, as the handler's `try` block
observes it: given the validated row, `float(model.predict(df)[0])` either
produces a float or raises (`.error` carries `str(e)`). -/
abbrev ModelFn := List PyFloat → Except String PyFloat

/-- The module-level state set at startup: `model` and `model_load_error`
(the feature schema `FEATURES` is a fixed constant). -/
structure AppState where
  model : Option ModelFn
  model_load_error : Option String

/-- Startup: `model = load_model(MODEL_PATH)` with the `except` branch
keeping the error string and the `else` branch clearing it. -/
def initState (res : Except String ModelFn) : AppState :=
  match res with
  | .ok m => { model := some m, model_load_error := none }
  | .error e => { model := none, model_load_error := some e }

/-- A `/predict` response: `jsonify({"success": false, "error": e}), st`
or `jsonify({"success": true, "prediction": p, "input": rec})` (HTTP 200). -/
inductive Response where
  | failure (error : String) (status : Nat) : Response
  | success (prediction : PyFloat) (input : List (String × PyFloat)) : Response
deriving DecidableEq, Repr

/-- Python's `x or y` for an optional string: `y` when `x` is `None` or
empty (falsy), else the string. -/
def pyOrStr (x : Option String) (y : String) : String :=
  match x with
  | none => y
  | some s => if s = "" then y else s

/-- The `/predict` handler.  It returns the response together with the
(unchanged) module state: despite the `global model, model_load_error`
declaration the handler never assigns either.  Every `except` branch of
the source is a `match` arm here, so the function is total: no exception
escapes and the process never exits. -/
def predict (st : AppState) (form : Form) : Response × AppState :=
  match st.model with
  | none =>
      (.failure ("Model not loaded: " ++ pyOrStr st.model_load_error "unknown") 500, st)
  | some m =>
      match prepare_input form with
      | .error e => (.failure e 400, st)
      | .ok vals =>
          match m vals with
          | .error e => (.failure ("Model prediction failed: " ++ e) 500, st)
          | .ok revenue => (.success revenue (FEATURES.zip vals), st)

/-- Substring containment, used to state that an error message mentions
a name or reason. -/
def strContains (s t : String) : Prop :=
  ∃ a z : List Char, s.data = a ++ t.data ++ z

/-- Equality of request outcomes is decidable (used to evaluate the
embedded functions on concrete inputs). -/
instance instDecidableEqExcept {e a : Type} [DecidableEq e] [DecidableEq a] :
    DecidableEq (Except e a) := fun x y =>
  match x, y with
  | .ok u, .ok v => if h : u = v then .isTrue (by rw [h]) else .isFalse (by simp [h])
  | .error u, .error v => if h : u = v then .isTrue (by rw [h]) else .isFalse (by simp [h])
  | .ok _, .error _ => .isFalse (by simp)
  | .error _, .ok _ => .isFalse (by simp)

/-- The canonical six-field submission from the spec's round-trip test. -/
def canonicalForm : Form :=
  [ ("Number_of_Customers_Per_Day", "100")
  , ("Average_Order_Value", "5.5")
  , ("Operating_Hours_Per_Day", "10")
  , ("Number_of_Employees", "3")
  , ("Marketing_Spend_Per_Day", "20")
  , ("Location_Foot_Traffic", "200") ]

/-- A stub model whose `predict` returns `[42.0]`: the handler's
`float(model.predict(df)[0])` then yields `42.0`. -/
def stubModel : ModelFn := fun _ => .ok (.finite 42)

/-! ## Helper lemmas -/

theorem strContains_of_split (s t x y : String) (h : s = x ++ t ++ y) :
    strContains s t :=
  ⟨x.data, y.data, by simp [h, String.data_append]⟩

theorem strContains_appendL (u s t : String) (h : strContains s t) :
    strContains (u ++ s) t := by
  obtain ⟨a, z, hz⟩ := h
  exact ⟨u.data ++ a, z, by simp [String.data_append, hz]⟩

theorem strContains_appendR (s u t : String) (h : strContains s t) :
    strContains (s ++ u) t := by
  obtain ⟨a, z, hz⟩ := h
  exact ⟨a, z ++ u.data, by simp [String.data_append, hz]⟩

theorem strContains_refl (t : String) : strContains t t :=
  ⟨[], [], by simp⟩

theorem strContains_empty (s : String) : strContains s "" :=
  ⟨[], s.data, by simp⟩

theorem pyEscape_plain : ∀ cs : List Char, cs.all plainChar = true → pyEscape cs = cs
  | [], _ => rfl
  | c :: cs, h => by
      rw [List.all_cons, Bool.and_eq_true] at h
      have hc := h.1
      have hcs := h.2
      simp only [plainChar, Bool.not_eq_true', Bool.or_eq_false_iff,
        decide_eq_false_iff_not] at hc
      obtain ⟨⟨⟨⟨h1, h2⟩, h3⟩, h4⟩, h5⟩ := hc
      simp [pyEscape, pyEscapeChar, h1, h2, h3, h4, h5, String.singleton,
        pyEscape_plain cs hcs]

theorem pyReprStr_plain (s : String) (h : plainStr s = true) :
    pyReprStr s = "'" ++ s ++ "'" := by
  simp only [pyReprStr, plainStr] at *
  rw [pyEscape_plain s.data h]

theorem pyFloatOfString_empty : pyFloatOfString "" = none := by decide

theorem prepareInputAux_ok_of_parses (form : Form) :
    ∀ fs : List String, (∀ f ∈ fs, (pyFloatOfString (rawOf form f)).isSome = true) →
      prepareInputAux form fs = .ok (fs.filterMap fun f => pyFloatOfString (rawOf form f)) ∧
      (fs.filterMap fun f => pyFloatOfString (rawOf form f)).length = fs.length
  | [], _ => ⟨rfl, rfl⟩
  | feat :: rest, h => by
      have hf := h feat (List.mem_cons_self feat rest)
      obtain ⟨v, hv⟩ := Option.isSome_iff_exists.mp hf
      have hraw : rawOf form feat ≠ "" := by
        intro he
        rw [he, pyFloatOfString_empty] at hv
        exact Option.noConfusion hv
      have ih := prepareInputAux_ok_of_parses form rest
        (fun f hf2 => h f (List.mem_cons_of_mem _ hf2))
      refine ⟨?_, ?_⟩
      · simp [prepareInputAux, hraw, hv, List.filterMap_cons, ih.1, Except.map]
      · simp [List.filterMap_cons, hv, ih.2]

theorem prepareInputAux_isOk_iff (form : Form) :
    ∀ fs : List String, (∃ vals, prepareInputAux form fs = .ok vals) ↔
      ∀ f ∈ fs, rawOf form f ≠ "" ∧ (pyFloatOfString (rawOf form f)).isSome = true
  | [] => by
      constructor
      · intro _ f hf
        exact absurd hf (List.not_mem_nil f)
      · intro _
        exact ⟨[], rfl⟩
  | feat :: rest => by
      by_cases hraw : rawOf form feat = ""
      · constructor
        · intro ⟨vals, hvals⟩
          simp [prepareInputAux, hraw] at hvals
        · intro h
          exact absurd hraw (h feat (List.mem_cons_self feat rest)).1
      · cases hp : pyFloatOfString (rawOf form feat) with
        | none =>
            constructor
            · intro ⟨vals, hvals⟩
              simp [prepareInputAux, hraw, hp] at hvals
            · intro h
              have := (h feat (List.mem_cons_self feat rest)).2
              rw [hp] at this
              exact Bool.noConfusion this
        | some v =>
            have ih := prepareInputAux_isOk_iff form rest
            constructor
            · intro ⟨vals, hvals⟩
              simp only [prepareInputAux, hraw, if_neg hraw, hp] at hvals
              intro f hf
              rcases List.mem_cons.mp hf with hfe | hfr
              · subst hfe
                exact ⟨hraw, by rw [hp]; rfl⟩
              · refine (ih.mp ?_) f hfr
                cases hrest : prepareInputAux form rest with
                | ok l => exact ⟨l, rfl⟩
                | error e =>
                    rw [hrest] at hvals
                    exact Except.noConfusion hvals
            · intro h
              obtain ⟨vals', hvals'⟩ := ih.mpr
                (fun f hf => h f (List.mem_cons_of_mem _ hf))
              exact ⟨v :: vals', by simp [prepareInputAux, hraw, hp, hvals', Except.map]⟩

theorem prepareInputAux_error_missing (form : Form) :
    ∀ pre : List String, ∀ feat : String, ∀ rest : List String,
      (∀ f ∈ pre, (pyFloatOfString (rawOf form f)).isSome = true) →
      rawOf form feat = "" →
      prepareInputAux form (pre ++ feat :: rest) = .error ("Missing value for " ++ feat)
  | [], feat, rest, _, hfeat => by
      simp [prepareInputAux, hfeat]
  | p :: pre, feat, rest, h, hfeat => by
      have hp := h p (List.mem_cons_self p pre)
      obtain ⟨v, hv⟩ := Option.isSome_iff_exists.mp hp
      have hraw : rawOf form p ≠ "" := by
        intro he
        rw [he, pyFloatOfString_empty] at hv
        exact Option.noConfusion hv
      have ih := prepareInputAux_error_missing form pre feat rest
        (fun f hf => h f (List.mem_cons_of_mem _ hf)) hfeat
      simp [prepareInputAux, hraw, hv, ih, Except.map]

theorem prepareInputAux_error_invalid (form : Form) :
    ∀ pre : List String, ∀ feat : String, ∀ rest : List String,
      (∀ f ∈ pre, (pyFloatOfString (rawOf form f)).isSome = true) →
      rawOf form feat ≠ "" →
      pyFloatOfString (rawOf form feat) = none →
      prepareInputAux form (pre ++ feat :: rest) =
        .error ("Invalid numeric value for " ++ feat ++ ": '" ++ rawOf form feat ++ "'")
  | [], feat, rest, _, hne, hparse => by
      simp [prepareInputAux, hne, hparse]
  | p :: pre, feat, rest, h, hne, hparse => by
      have hp := h p (List.mem_cons_self p pre)
      obtain ⟨v, hv⟩ := Option.isSome_iff_exists.mp hp
      have hraw : rawOf form p ≠ "" := by
        intro he
        rw [he, pyFloatOfString_empty] at hv
        exact Option.noConfusion hv
      have ih := prepareInputAux_error_invalid form pre feat rest
        (fun f hf => h f (List.mem_cons_of_mem _ hf)) hne hparse
      simp [prepareInputAux, hraw, hv, ih, Except.map]

theorem prepareInputAux_congr (form1 form2 : Form) :
    ∀ fs : List String, (∀ f ∈ fs, formGet form1 f "" = formGet form2 f "") →
      prepareInputAux form1 fs = prepareInputAux form2 fs
  | [], _ => rfl
  | feat :: rest, h => by
      have hfe : rawOf form1 feat = rawOf form2 feat := by
        unfold rawOf
        rw [h feat (List.mem_cons_self feat rest)]
      have ih := prepareInputAux_congr form1 form2 rest
        (fun f hf => h f (List.mem_cons_of_mem _ hf))
      simp [prepareInputAux, hfe, ih]

theorem strContains_reprStr (s : String) (h : plainStr s = true) :
    strContains (pyReprStr s) s := by
  rw [pyReprStr_plain s h]
  exact strContains_appendR _ _ _ (strContains_appendL _ _ _ (strContains_refl s))

theorem strContains_pair_fst (a b : String) (ha : plainStr a = true) :
    strContains (pyReprPair (a, b)) a := by
  unfold pyReprPair
  exact strContains_appendR _ _ _ (strContains_appendR _ _ _
    (strContains_appendR _ _ _ (strContains_appendL _ _ _ (strContains_reprStr a ha))))

theorem strContains_pair_snd (a b : String) (hb : plainStr b = true) :
    strContains (pyReprPair (a, b)) b := by
  unfold pyReprPair
  exact strContains_appendR _ _ _ (strContains_appendL _ _ _ (strContains_reprStr b hb))

theorem strContains_join3_1 (x y z t : String) (h : strContains x t) :
    strContains (commaJoin [x, y, z]) t := by
  simp only [commaJoin]
  exact strContains_appendR _ _ _ (strContains_appendR _ _ _ h)

theorem strContains_join3_2 (x y z t : String) (h : strContains y t) :
    strContains (commaJoin [x, y, z]) t := by
  simp only [commaJoin]
  exact strContains_appendL _ _ _ (strContains_appendR _ _ _ (strContains_appendR _ _ _ h))

theorem strContains_join3_3 (x y z t : String) (h : strContains z t) :
    strContains (commaJoin [x, y, z]) t := by
  simp only [commaJoin]
  exact strContains_appendL _ _ _ (strContains_appendL _ _ _ h)

theorem strContains_errs3 (p1 p2 p3 : String × String) (t : String)
    (h : strContains (commaJoin [pyReprPair p1, pyReprPair p2, pyReprPair p3]) t) :
    strContains (pyReprErrs [p1, p2, p3]) t := by
  unfold pyReprErrs
  simp only [List.map]
  exact strContains_appendR _ _ _ (strContains_appendL _ _ _ h)

/-! ## Claim theorems -/

/-- Claim C1: for every form submission containing six non-blank values,
one per schema field in order, each parseable as a floating-point number,
`prepare_input` succeeds and produces a record with exactly the six schema
fields, in schema order, whose values equal the parsed floats of the
submitted strings. -/
theorem prepare_input_valid_inputs (form : Form)
    (h : ∀ f ∈ FEATURES, rawOf form f ≠ "" ∧ (pyFloatOfString (rawOf form f)).isSome = true) :
    prepare_input form = .ok (FEATURES.filterMap fun f => pyFloatOfString (rawOf form f)) ∧
    (FEATURES.filterMap fun f => pyFloatOfString (rawOf form f)).length = FEATURES.length :=
  prepareInputAux_ok_of_parses form FEATURES (fun f hf => (h f hf).2)

/-- Witness for C1: the canonical submission satisfies the hypothesis and
produces the six parsed values. -/
theorem prepare_input_valid_inputs_witness :
    prepare_input canonicalForm =
      .ok (FEATURES.filterMap fun f => pyFloatOfString (rawOf canonicalForm f)) ∧
    (FEATURES.filterMap fun f => pyFloatOfString (rawOf canonicalForm f)).length =
      FEATURES.length :=
  prepare_input_valid_inputs canonicalForm (by decide)

/-- Claim C2: the `/predict` handler is a total function (no unhandled
exception, no process exit) that returns exactly one structured response:
status 400 with the validation error surfaced verbatim when the input
builder fails, status 500 when the model handle is absent or model
invocation fails, and a success response otherwise. -/
theorem predict_total_response (st : AppState) (form : Form) :
    (st.model = none →
      (predict st form).1 =
        .failure ("Model not loaded: " ++ pyOrStr st.model_load_error "unknown") 500) ∧
    (∀ m, st.model = some m →
      (∀ e, prepare_input form = .error e → (predict st form).1 = .failure e 400) ∧
      (∀ vals, prepare_input form = .ok vals →
        (∀ e, m vals = .error e →
          (predict st form).1 = .failure ("Model prediction failed: " ++ e) 500) ∧
        (∀ p, m vals = .ok p →
          (predict st form).1 = .success p (FEATURES.zip vals)))) := by
  constructor
  · intro hm
    simp [predict, hm]
  · intro m hm
    constructor
    · intro e he
      simp [predict, hm, he]
    · intro vals hvals
      constructor
      · intro e he
        simp [predict, hm, hvals, he]
      · intro p hp
        simp [predict, hm, hvals, hp]

/-- Witness for C2: with a loaded stub model and the canonical submission,
the classification yields the success response. -/
theorem predict_total_response_witness :
    (predict (initState (.ok stubModel)) canonicalForm).1 =
      .success (.finite 42)
        (FEATURES.zip [.finite 100, .finite (mkRat 11 2), .finite 10,
          .finite 3, .finite 20, .finite 200]) :=
  (((predict_total_response (initState (.ok stubModel)) canonicalForm).2 stubModel
      rfl).2
    [.finite 100, .finite (mkRat 11 2), .finite 10, .finite 3, .finite 20, .finite 200]
    (by decide)).2 (.finite 42) rfl

/-- Claim C3: the model loader tries deserialization strategies in the
fixed order joblib, then pickle with latin1 encoding, then dill, and
returns the result of the first strategy that succeeds (a failure in one
strategy never propagates past it); if all three fail, the model handle is
absent and a single aggregated error message mentions all three strategy
names and each strategy's failure reason (stated for escape-free reasons,
whose `repr` rendering is verbatim). -/
theorem load_model_strategy_order (m : ModelFn) (p d : Except String ModelFn)
    (e1 e2 e3 : String)
    (h1 : plainStr e1 = true) (h2 : plainStr e2 = true) (h3 : plainStr e3 = true) :
    load_model (.ok m) p d = .ok m ∧
    load_model (.error e1) (.ok m) d = .ok m ∧
    load_model (.error e1) (.error e2) (.ok m) = .ok m ∧
    (initState (load_model (.error e1) (.error e2) (.ok m))).model = some m ∧
    (initState (load_model (.error e1) (.error e2) (.ok m))).model_load_error = none ∧
    ∃ msg,
      (load_model (.error e1) (.error e2) (.error e3) : Except String ModelFn) =
        .error msg ∧
      (initState (load_model (.error e1) (.error e2) (.error e3))).model = none ∧
      (initState (load_model (.error e1) (.error e2) (.error e3))).model_load_error =
        some msg ∧
      strContains msg "joblib" ∧ strContains msg "pickle_latin1" ∧
      strContains msg "dill" ∧
      strContains msg e1 ∧ strContains msg e2 ∧ strContains msg e3 := by
  refine ⟨rfl, rfl, rfl, rfl, rfl,
    "Model could not be loaded. Tried joblib, pickle(latin1), dill. Errors: " ++
      pyReprErrs [("joblib", e1), ("pickle_latin1", e2), ("dill", e3)],
    rfl, rfl, rfl, ?_, ?_, ?_, ?_, ?_, ?_⟩
  · exact strContains_appendL _ _ _ (strContains_errs3 _ _ _ _
      (strContains_join3_1 _ _ _ _ (strContains_pair_fst "joblib" e1 (by decide))))
  · exact strContains_appendL _ _ _ (strContains_errs3 _ _ _ _
      (strContains_join3_2 _ _ _ _ (strContains_pair_fst "pickle_latin1" e2 (by decide))))
  · exact strContains_appendL _ _ _ (strContains_errs3 _ _ _ _
      (strContains_join3_3 _ _ _ _ (strContains_pair_fst "dill" e3 (by decide))))
  · exact strContains_appendL _ _ _ (strContains_errs3 _ _ _ _
      (strContains_join3_1 _ _ _ _ (strContains_pair_snd "joblib" e1 h1)))
  · exact strContains_appendL _ _ _ (strContains_errs3 _ _ _ _
      (strContains_join3_2 _ _ _ _ (strContains_pair_snd "pickle_latin1" e2 h2)))
  · exact strContains_appendL _ _ _ (strContains_errs3 _ _ _ _
      (strContains_join3_3 _ _ _ _ (strContains_pair_snd "dill" e3 h3)))

/-- Witness for C3: concrete strategy outcomes, with plain reason
strings. -/
theorem load_model_strategy_order_witness :
    load_model (.ok stubModel) (.error "px") (.error "dx") = .ok stubModel ∧
    load_model (.error "jx") (.ok stubModel) (.error "dx") = .ok stubModel ∧
    load_model (.error "jx") (.error "px") (.ok stubModel) = .ok stubModel ∧
    (initState (load_model (.error "jx") (.error "px") (.ok stubModel))).model =
      some stubModel ∧
    (initState (load_model (.error "jx") (.error "px") (.ok stubModel))).model_load_error =
      none ∧
    ∃ msg,
      (load_model (.error "jx") (.error "px") (.error "dx") : Except String ModelFn) =
        .error msg ∧
      (initState (load_model (.error "jx") (.error "px") (.error "dx"))).model = none ∧
      (initState
        (load_model (.error "jx") (.error "px") (.error "dx"))).model_load_error =
          some msg ∧
      strContains msg "joblib" ∧ strContains msg "pickle_latin1" ∧
      strContains msg "dill" ∧
      strContains msg "jx" ∧ strContains msg "px" ∧ strContains msg "dx" := by
  have h := load_model_strategy_order stubModel (.error "px") (.error "dx")
    "jx" "px" "dx" (by decide) (by decide) (by decide)
  exact ⟨h.1, h.2.1, h.2.2.1, h.2.2.2.1, h.2.2.2.2.1, h.2.2.2.2.2⟩

/-- Claim C4: if the model handle is absent, every `/predict` request
fails with status 500 and an error message containing the stored load
error text, without attempting validation or model invocation (the
response does not depend on the submitted form at all). -/
theorem predict_absent_model (st : AppState) (form form2 : Form) (err : String)
    (hm : st.model = none) (he : st.model_load_error = some err) :
    ∃ msg, (predict st form).1 = .failure msg 500 ∧ strContains msg err ∧
      predict st form = predict st form2 := by
  obtain ⟨mo, mle⟩ := st
  simp only at hm he
  subst hm
  subst he
  refine ⟨"Model not loaded: " ++ pyOrStr (some err) "unknown", rfl, ?_, rfl⟩
  by_cases herr : err = ""
  · exact herr ▸ strContains_empty _
  · have : pyOrStr (some err) "unknown" = err := by simp [pyOrStr, herr]
    rw [this]
    exact strContains_appendL _ _ _ (strContains_refl err)

/-- Witness for C4: with a failed load recorded as `"boom"`, two distinct
requests both get the same 500 response mentioning `"boom"`. -/
theorem predict_absent_model_witness :
    ∃ msg, (predict (initState (.error "boom")) canonicalForm).1 = .failure msg 500 ∧
      strContains msg "boom" ∧
      predict (initState (.error "boom")) canonicalForm =
        predict (initState (.error "boom")) [] :=
  predict_absent_model (initState (.error "boom")) canonicalForm [] "boom" rfl rfl

/-- A submission refuting C5 as stated: the first schema field is
non-numeric while the second is absent (blank). -/
def formC5 : Form := [("Number_of_Customers_Per_Day", "abc")]

/-- Counterexample to C5 as stated: `formC5` has a blank schema field
(`Average_Order_Value`), yet `prepare_input` does not fail with a
missing-value error for any field — it reports the invalid numeric value
of the earlier field instead. -/
theorem prepare_input_missing_counterexample :
    rawOf formC5 "Average_Order_Value" = "" ∧
    "Average_Order_Value" ∈ FEATURES ∧
    prepare_input formC5 =
      .error "Invalid numeric value for Number_of_Customers_Per_Day: 'abc'" ∧
    ∀ f ∈ FEATURES, prepare_input formC5 ≠ .error ("Missing value for " ++ f) :=
  ⟨rfl, by decide, by decide, by decide⟩

/-- Claim C5 (amended): for any submission in which some schema field is
absent or blank after trimming whitespace and every earlier schema field
parses as a float, `prepare_input` fails with a "Missing value for X"
error naming the first such blank field. -/
theorem prepare_input_first_missing (form : Form) (pre : List String)
    (feat : String) (rest : List String)
    (hsplit : FEATURES = pre ++ feat :: rest)
    (hpre : ∀ f ∈ pre, (pyFloatOfString (rawOf form f)).isSome = true)
    (hfeat : rawOf form feat = "") :
    prepare_input form = .error ("Missing value for " ++ feat) := by
  rw [prepare_input, hsplit]
  exact prepareInputAux_error_missing form pre feat rest hpre hfeat

/-- Witness for C5 (amended): the empty submission fails naming the first
schema field. -/
theorem prepare_input_first_missing_witness :
    prepare_input [] = .error ("Missing value for " ++ "Number_of_Customers_Per_Day") :=
  prepare_input_first_missing [] [] "Number_of_Customers_Per_Day"
    [ "Average_Order_Value", "Operating_Hours_Per_Day", "Number_of_Employees",
      "Marketing_Spend_Per_Day", "Location_Foot_Traffic" ]
    rfl (by decide) rfl

/-- A submission refuting C6 as stated: the second schema field is
non-numeric while the first is absent. -/
def formC6 : Form := [("Average_Order_Value", "abc")]

/-- Counterexample to C6 as stated: `formC6` has a schema field with
non-empty non-numeric content (`Average_Order_Value = "abc"`), yet
`prepare_input` does not fail with an invalid-numeric-value error for any
field — it reports the earlier missing field instead. -/
theorem prepare_input_invalid_counterexample :
    rawOf formC6 "Average_Order_Value" = "abc" ∧
    pyFloatOfString "abc" = none ∧
    "Average_Order_Value" ∈ FEATURES ∧
    prepare_input formC6 = .error "Missing value for Number_of_Customers_Per_Day" ∧
    ∀ f ∈ FEATURES, prepare_input formC6 ≠
      .error ("Invalid numeric value for " ++ f ++ ": '" ++ rawOf formC6 f ++ "'") :=
  ⟨rfl, rfl, by decide, by decide, by decide⟩

/-- Claim C6 (amended): for any submission in which some schema field has
non-empty, non-numeric content after trimming and every earlier schema
field parses as a float, `prepare_input` fails with an
"Invalid numeric value for X: 'raw'" error naming that first failing
field and echoing its raw trimmed value. -/
theorem prepare_input_first_invalid (form : Form) (pre : List String)
    (feat : String) (rest : List String)
    (hsplit : FEATURES = pre ++ feat :: rest)
    (hpre : ∀ f ∈ pre, (pyFloatOfString (rawOf form f)).isSome = true)
    (hne : rawOf form feat ≠ "")
    (hparse : pyFloatOfString (rawOf form feat) = none) :
    prepare_input form =
      .error ("Invalid numeric value for " ++ feat ++ ": '" ++ rawOf form feat ++ "'") := by
  rw [prepare_input, hsplit]
  exact prepareInputAux_error_invalid form pre feat rest hpre hne hparse

/-- Witness for C6 (amended): a submission whose first field is `" abc "`
fails naming that field and echoing the trimmed raw value. -/
theorem prepare_input_first_invalid_witness :
    prepare_input [("Number_of_Customers_Per_Day", " abc ")] =
      .error ("Invalid numeric value for " ++ "Number_of_Customers_Per_Day" ++ ": '" ++
        rawOf [("Number_of_Customers_Per_Day", " abc ")] "Number_of_Customers_Per_Day" ++
        "'") :=
  prepare_input_first_invalid [("Number_of_Customers_Per_Day", " abc ")] []
    "Number_of_Customers_Per_Day"
    [ "Average_Order_Value", "Operating_Hours_Per_Day", "Number_of_Employees",
      "Marketing_Spend_Per_Day", "Location_Foot_Traffic" ]
    rfl (by decide) (by decide) (by decide)

/-- A submission carrying non-finite and scientific-notation values. -/
def nonFiniteForm : Form :=
  [ ("Number_of_Customers_Per_Day", "nan")
  , ("Average_Order_Value", "inf")
  , ("Operating_Hours_Per_Day", "-infinity")
  , ("Number_of_Employees", "1e5")
  , ("Marketing_Spend_Per_Day", "1")
  , ("Location_Foot_Traffic", "2") ]

/-- Claim C9 (implicit): `prepare_input` succeeds exactly when every
schema field's trimmed value is non-empty and accepted by the
floating-point parser; in particular `"nan"`, `"inf"`, `"-infinity"` and
scientific notation like `"1e5"` are accepted, so a record passed to the
model may contain non-finite values. -/
theorem prepare_input_accepts_iff (form : Form) :
    ((∃ vals, prepare_input form = .ok vals) ↔
      ∀ f ∈ FEATURES, rawOf form f ≠ "" ∧ (pyFloatOfString (rawOf form f)).isSome = true) ∧
    pyFloatOfString "nan" = some .nan ∧
    pyFloatOfString "inf" = some (.inf false) ∧
    pyFloatOfString "-infinity" = some (.inf true) ∧
    pyFloatOfString "1e5" = some (.finite 100000) ∧
    prepare_input nonFiniteForm =
      .ok [.nan, .inf false, .inf true, .finite 100000, .finite 1, .finite 2] :=
  ⟨prepareInputAux_isOk_iff form FEATURES, by decide, by decide, by decide,
    by decide, by decide⟩

/-- Witness for C9: the equivalence instantiated at the canonical
submission. -/
theorem prepare_input_accepts_iff_witness :
    ((∃ vals, prepare_input canonicalForm = .ok vals) ↔
      ∀ f ∈ FEATURES, rawOf canonicalForm f ≠ "" ∧
        (pyFloatOfString (rawOf canonicalForm f)).isSome = true) ∧
    pyFloatOfString "nan" = some .nan ∧
    pyFloatOfString "inf" = some (.inf false) ∧
    pyFloatOfString "-infinity" = some (.inf true) ∧
    pyFloatOfString "1e5" = some (.finite 100000) ∧
    prepare_input nonFiniteForm =
      .ok [.nan, .inf false, .inf true, .finite 100000, .finite 1, .finite 2] :=
  prepare_input_accepts_iff canonicalForm

/-- Claim C7: submitting the six canonical field values to `/predict` with
a stub model whose predict returns `[42.0]` yields the success response
with prediction `42.0` and an input echo of the same six fields as their
parsed float values (`5.5 = 11/2`). -/
theorem predict_roundtrip_canonical :
    (predict { model := some stubModel, model_load_error := none } canonicalForm).1 =
      .success (.finite 42)
        [ ("Number_of_Customers_Per_Day", .finite 100)
        , ("Average_Order_Value", .finite (mkRat 11 2))
        , ("Operating_Hours_Per_Day", .finite 10)
        , ("Number_of_Employees", .finite 3)
        , ("Marketing_Spend_Per_Day", .finite 20)
        , ("Location_Foot_Traffic", .finite 200) ] := by
  rfl

/-- Claim C8: the feature schema, the model handle and the load error are
set once at startup and never mutated by request handling; the load error
is non-null exactly when the model handle is absent, and null when a model
was loaded. -/
theorem app_state_immutable :
    (∀ st form, (predict st form).2 = st) ∧
    FEATURES =
      [ "Number_of_Customers_Per_Day", "Average_Order_Value",
        "Operating_Hours_Per_Day", "Number_of_Employees",
        "Marketing_Spend_Per_Day", "Location_Foot_Traffic" ] ∧
    (∀ res : Except String ModelFn,
      ((initState res).model_load_error ≠ none ↔ (initState res).model = none)) := by
  refine ⟨?_, rfl, ?_⟩
  · intro st form
    obtain ⟨mo, mle⟩ := st
    cases mo with
    | none => rfl
    | some m =>
        cases hpi : prepare_input form with
        | error e => simp [predict, hpi]
        | ok vals =>
            cases hv : m vals with
            | error e => simp [predict, hpi, hv]
            | ok p => simp [predict, hpi, hv]
  · intro res
    cases res with
    | ok m => simp [initState]
    | error e => simp [initState]

/-- Witness for C8: request handling leaves a concrete startup state
untouched, and the startup states of a failed and a successful load
satisfy the load-error/model relationship. -/
theorem app_state_immutable_witness :
    (predict (initState (.ok stubModel)) canonicalForm).2 = initState (.ok stubModel) ∧
    ((initState (.error "boom" : Except String ModelFn)).model_load_error ≠ none ↔
      (initState (.error "boom" : Except String ModelFn)).model = none) :=
  ⟨app_state_immutable.1 (initState (.ok stubModel)) canonicalForm,
    app_state_immutable.2.2 (.error "boom")⟩

/-- Claim C10: noninterference — for a fixed model state, two `/predict`
requests whose form data agree on the six schema fields produce identical
responses; form keys outside the feature schema never influence
validation, the input record, or the prediction. -/
theorem predict_noninterference (st : AppState) (form1 form2 : Form)
    (h : ∀ f ∈ FEATURES, formGet form1 f "" = formGet form2 f "") :
    predict st form1 = predict st form2 := by
  have hpi : prepare_input form1 = prepare_input form2 :=
    prepareInputAux_congr form1 form2 FEATURES h
  obtain ⟨mo, mle⟩ := st
  cases mo with
  | none => rfl
  | some m => simp [predict, prepare_input] at hpi ⊢; rw [hpi]

/-- Witness for C10: adding a key outside the schema to the canonical
submission leaves the response unchanged. -/
theorem predict_noninterference_witness :
    (∀ f ∈ FEATURES,
      formGet (("extra_key", "99") :: canonicalForm) f "" = formGet canonicalForm f "") ∧
    predict (initState (.ok stubModel)) (("extra_key", "99") :: canonicalForm) =
      predict (initState (.ok stubModel)) canonicalForm :=
  ⟨by decide,
    predict_noninterference (initState (.ok stubModel)) _ _ (by decide)⟩

end CoffeeApp
